import Mathlib

/-!
Shallow embedding of the irp-integration client library (src/client.py,
src/portfolio.py, src/mri_import.py, src/utils.py, src/irp_integration/*).

The polling loops of the source are modelled as functions over an explicit
trace of server responses (one record per status fetch, one page list per
batch tick).  Wall-clock time is idealised: a fetch takes no time and each
sleep advances the clock by exactly `interval` seconds, matching the
structure of the source, which sets start once and then sleeps between ticks.

The status sets WORKFLOW_COMPLETED_STATUSES and WORKFLOW_IN_PROGRESS_STATUSES
live in the constants module of src, which is not part of the provided sources;
every definition is therefore parameterised by the two sets, exactly as the
loops only ever test membership in them.
-/

set_option maxRecDepth 40000

namespace IRPIntegration

/-- A workflow/job status record as returned by one GET status fetch.
`status`/`progress` are `Option`s because the JSON fields may be absent;
`tag` stands for the rest of the (opaque) payload so that distinct
responses are distinguishable. -/
structure WfRecord where
  status : Option String
  progress : Option Nat
  tag : Nat := 0
deriving DecidableEq, Repr

/-- Outcome of a single-handle polling loop, with the number of status
fetches performed. -/
inductive PollOutcome
  | finished (payload : WfRecord) (fetches : Nat)
  | malformed (fetches : Nat)
  | timedOut (lastStatus : String) (fetches : Nat)
  | exhausted (fetches : Nat)
deriving DecidableEq, Repr

/-- Number of status fetches recorded in a poll outcome. -/
def PollOutcome.fetches : PollOutcome → Nat
  | .finished _ n => n
  | .malformed n => n
  | .timedOut _ n => n
  | .exhausted n => n

/-- Embeds the body of `Client.poll_workflow_to_completion` (src/client.py
lines 166-185) and the textually identical loop of
`PortfolioManager.poll_geohaz_job_to_completion` (src/portfolio.py lines
493-512): each tick reads the status and progress keys of job_data
(KeyError on a missing field is re-raised as IRPAPIError, the `malformed`
outcome), returns the record if the status is in the COMPLETED set,
raises a timeout error if the elapsed time exceeds `timeout`, and
otherwise sleeps `interval` seconds and loops. -/
def pollJobAux (completed : List String) (interval timeout : Nat) :
    List WfRecord → Nat → Nat → PollOutcome
  | [], _, fetches => .exhausted fetches
  | r :: rest, elapsed, fetches =>
    match r.status, r.progress with
    | some s, some _ =>
      if s ∈ completed then .finished r (fetches + 1)
      else if elapsed > timeout then .timedOut s (fetches + 1)
      else pollJobAux completed interval timeout rest (elapsed + interval) (fetches + 1)
    | _, _ => .malformed (fetches + 1)

/-- `Client.poll_workflow_to_completion` run on a trace of fetched records. -/
def poll_workflow_to_completion (completed : List String) (interval timeout : Nat)
    (responses : List WfRecord) : PollOutcome :=
  pollJobAux completed interval timeout responses 0 0

/-- Embeds the body of `Client.poll_workflow` (src/client.py lines 214-230):
the URL-style poller reads the fields with a dict get defaulting to the
empty string, so a missing field silently defaults to the
empty string instead of failing. -/
def pollUrlAux (completed : List String) (interval timeout : Nat) :
    List WfRecord → Nat → Nat → PollOutcome
  | [], _, fetches => .exhausted fetches
  | r :: rest, elapsed, fetches =>
    let s := r.status.getD ""
    if s ∈ completed then .finished r (fetches + 1)
    else if elapsed > timeout then .timedOut s (fetches + 1)
    else pollUrlAux completed interval timeout rest (elapsed + interval) (fetches + 1)

/-- `Client.poll_workflow` run on a trace of fetched records. -/
def poll_workflow (completed : List String) (interval timeout : Nat)
    (responses : List WfRecord) : PollOutcome :=
  pollUrlAux completed interval timeout responses 0 0

/-- One page of the workflow listing endpoint: the server-reported
`totalMatchCount` (absent field modelled as `none`) and the
`workflows` list. -/
structure Page where
  totalMatchCount : Option Nat
  workflows : List WfRecord
deriving DecidableEq, Repr

/-- Outcome of the inner pagination loop of a batch tick, recording the
offsets at which pages were fetched. -/
inductive FetchPagesOutcome
  | done (all : List WfRecord) (offsets : List Nat)
  | malformed (offsets : List Nat)
  | exhausted (offsets : List Nat)
deriving DecidableEq, Repr

/-- Embeds the inner `while True` pagination loop of
`Client.poll_workflow_batch_to_completion` (src/client.py lines 262-291)
and the identical loop of
`MRIImportManager.poll_import_job_batch_to_completion` (src/mri_import.py
lines 415-443): fetch a page at the current offset, fail if
`totalMatchCount` is missing, extend the accumulator with the fetched
workflows, stop once the cumulative count reaches `totalMatchCount`,
otherwise advance the offset by `limit`. -/
def fetchPagesAux (limit : Nat) :
    List Page → List WfRecord → Nat → List Nat → FetchPagesOutcome
  | [], _, _, offsets => .exhausted offsets
  | p :: rest, acc, offset, offsets =>
    match p.totalMatchCount with
    | none => .malformed (offsets ++ [offset])
    | some tmc =>
      let acc2 := acc ++ p.workflows
      if tmc ≤ acc2.length then .done acc2 (offsets ++ [offset])
      else fetchPagesAux limit rest acc2 (offset + limit) (offsets ++ [offset])

/-- The pagination pass of one batch tick: `all_workflows = []`,
`offset = 0`, `limit = 100` exactly as in the source. -/
def fetch_all_pages (pages : List Page) : FetchPagesOutcome :=
  fetchPagesAux 100 pages [] 0 []

/-- Outcome of a batch polling loop; `trace` records, per tick, the offsets
at which that tick fetched pages. -/
inductive BatchOutcome
  | finished (all : List WfRecord) (trace : List (List Nat))
  | malformed (trace : List (List Nat))
  | timedOut (trace : List (List Nat))
  | exhausted (trace : List (List Nat))
deriving DecidableEq, Repr

/-- Embeds the outer loop of `Client.poll_workflow_batch_to_completion`
(src/client.py lines 257-310) and of
`MRIImportManager.poll_import_job_batch_to_completion` (src/mri_import.py
lines 411-460): each tick re-runs the full pagination pass, then scans the
fetched workflows; the tick is complete when no fetched status
(dict get of status, defaulting to the empty string) is in the IN_PROGRESS set, in which case all
workflows are returned; otherwise the loop times out or sleeps. -/
def pollBatchAux (inProgress : List String) (interval timeout : Nat) :
    List (List Page) → Nat → List (List Nat) → BatchOutcome
  | [], _, trace => .exhausted trace
  | pages :: rest, elapsed, trace =>
    match fetch_all_pages pages with
    | .malformed offs => .malformed (trace ++ [offs])
    | .exhausted offs => .exhausted (trace ++ [offs])
    | .done all offs =>
      if all.all (fun w => decide (w.status.getD "" ∉ inProgress)) then
        .finished all (trace ++ [offs])
      else if elapsed > timeout then .timedOut (trace ++ [offs])
      else pollBatchAux inProgress interval timeout rest (elapsed + interval) (trace ++ [offs])

/-- `Client.poll_workflow_batch_to_completion` run on a trace of ticks. -/
def poll_workflow_batch_to_completion (inProgress : List String)
    (interval timeout : Nat) (ticks : List (List Page)) : BatchOutcome :=
  pollBatchAux inProgress interval timeout ticks 0 []

/-- The submission response seen by `Client.execute_workflow`: its HTTP
status code and optional `Location` header. -/
structure SubmitResponse where
  statusCode : Nat
  location : Option String
deriving DecidableEq, Repr

/-- Outcome of `Client.execute_workflow`. -/
inductive ExecOutcome
  | syncResponse (resp : SubmitResponse) (statusFetches : Nat)
  | missingLocation
  | polled (r : PollOutcome)
deriving DecidableEq, Repr

/-- Embeds `Client.execute_workflow` (src/client.py lines 312-364): if the
submission status code is neither 201 nor 202 the response is returned
as-is with no polling; otherwise the workflow URL is taken from the
`Location` header (`get_location_header` raises if the header is absent,
and `execute_workflow` additionally raises if it is empty) and handed to
`poll_workflow`. -/
def execute_workflow (completed : List String) (interval timeout : Nat)
    (resp : SubmitResponse) (statusResponses : List WfRecord) : ExecOutcome :=
  if resp.statusCode = 201 ∨ resp.statusCode = 202 then
    match resp.location with
    | none => .missingLocation
    | some url =>
      if url = "" then .missingLocation
      else .polled (poll_workflow completed interval timeout statusResponses)
  else .syncResponse resp 0

/-- A reference-data item as seen by `find_reference_data_by_name`
(src/utils.py lines 223-264): `item.get(name_field)` may be absent, so the
name is an `Option`; `payload` stands for the rest of the dict. -/
structure RefItem where
  name : Option String
  payload : Nat := 0
deriving DecidableEq, Repr

/-- Result of `find_reference_data_by_name`. -/
inductive RefLookupResult
  | ok (item : RefItem)
  | emptyListError (dataType : String)
  | notFoundError (dataType target : String)
deriving DecidableEq, Repr

/-- Embeds `find_reference_data_by_name` (src/utils.py lines 223-264): an
empty list raises an IRPReferenceDataError; otherwise `next(...)` takes the
FIRST item whose `item.get(name_field)` equals the target, returning it if
one exists and raising a not-found IRPReferenceDataError otherwise. -/
def find_reference_data_by_name (dataList : List RefItem) (target : String)
    (dataType : String) : RefLookupResult :=
  if dataList.isEmpty then .emptyListError dataType
  else
    match dataList.find? (fun item => item.name == some target) with
    | none => .notFoundError dataType target
    | some item => .ok item

/-- A portfolio record from `search_portfolios`; `portfolioId` and `uri`
may be absent from the JSON. -/
structure PortfolioRec where
  portfolioId : Option Nat
  uri : Option String := none
deriving DecidableEq, Repr

/-- Result of the portfolio-lookup step of
`MRIImportManager.submit_mri_import_job`, error messages exactly as in the
source f-strings. -/
inductive MriPortfolioLookup
  | ok (portfolioId : Nat)
  | notFound (msg : String)
  | ambiguous (msg : String)
  | extractError
deriving DecidableEq, Repr

/-- Embeds the portfolio-lookup step of
`MRIImportManager.submit_mri_import_job` (src/mri_import.py lines 562-579):
zero matches raises "Portfolio with name ... not found"; more than one
raises "... portfolios found with name ..., please use a unique name";
otherwise the portfolioId of the first match is extracted. -/
def mri_lookup_portfolio (portfolio_name : String)
    (portfolios : List PortfolioRec) : MriPortfolioLookup :=
  if portfolios.length = 0 then
    .notFound ("Portfolio with name " ++ portfolio_name ++ " not found")
  else if 1 < portfolios.length then
    .ambiguous (toString portfolios.length ++ " portfolios found with name " ++
      portfolio_name ++ ", please use a unique name")
  else
    match portfolios with
    | p :: _ =>
      match p.portfolioId with
      | some pid => .ok pid
      | none => .extractError
    | [] => .extractError

/-- An EDM record from `search_edms`; `exposureId` may be absent. -/
structure EdmRec where
  exposureId : Option Nat
deriving DecidableEq, Repr

/-- Result of the EDM-lookup step shared by `submit_mri_import_job` and
`PortfolioManager.create_portfolio`. -/
inductive EdmLookup
  | ok (exposureId : Nat)
  | countError (msg : String)
  | extractError
deriving DecidableEq, Repr

/-- Embeds the EDM-lookup step of `MRIImportManager.submit_mri_import_job`
(src/mri_import.py lines 550-560) and `PortfolioManager.create_portfolio`
(src/portfolio.py lines 240-248): any match count other than one raises
"Expected 1 EDM with name ..., found ..."; otherwise
the exposureId of the single match is extracted. -/
def lookup_edm (edm_name : String) (edms : List EdmRec) : EdmLookup :=
  if edms.length ≠ 1 then
    .countError ("Expected 1 EDM with name " ++ edm_name ++ ", found " ++
      toString edms.length)
  else
    match edms with
    | e :: _ =>
      match e.exposureId with
      | some x => .ok x
      | none => .extractError
    | [] => .extractError

/-- The five required raw fields of the MRI credentials payload, in the
order of `required_fields` in `decode_mri_credentials` (src/utils.py line
168). -/
def mriRequiredFields : List String :=
  ["accessKeyId", "secretAccessKey", "sessionToken", "s3Path", "s3Region"]

/-- The decoded credential record built by `decode_mri_credentials`. -/
structure MriCredentials where
  aws_access_key_id : String
  aws_secret_access_key : String
  aws_session_token : String
  s3_path : String
  s3_region : String
deriving DecidableEq, Repr

/-- Result of `decode_mri_credentials`. -/
inductive CredResult
  | ok (c : MriCredentials)
  | missingFields (missing : List String)
  | decodeError (field : String)
deriving DecidableEq, Repr

/-- `response_json[f]` on the raw payload, modelled as an association
list. -/
def lookupField (payload : List (String × String)) (f : String) : Option String :=
  payload.lookup f

/-- One `decode_base64_field(payload[f], f)` call (src/utils.py lines
133-152), with the Python stdlib decoder `base64.b64decode(...).decode`
abstracted as the parameter `b64`; a failure carries the field name used
in the error message. -/
def decodeRequired (b64 : String → Option String)
    (payload : List (String × String)) (f : String) : Except String String :=
  match lookupField payload f with
  | none => .error f
  | some v =>
    match b64 v with
    | none => .error f
    | some d => .ok d

/-- The dict-literal of `decode_mri_credentials` (src/utils.py lines
176-182): the five fields are decoded in source order and the first
failure aborts. -/
def decodeAllFields (b64 : String → Option String)
    (payload : List (String × String)) : Except String MriCredentials :=
  match decodeRequired b64 payload "accessKeyId" with
  | .error f => .error f
  | .ok d1 =>
    match decodeRequired b64 payload "secretAccessKey" with
    | .error f => .error f
    | .ok d2 =>
      match decodeRequired b64 payload "sessionToken" with
      | .error f => .error f
      | .ok d3 =>
        match decodeRequired b64 payload "s3Path" with
        | .error f => .error f
        | .ok d4 =>
          match decodeRequired b64 payload "s3Region" with
          | .error f => .error f
          | .ok d5 => .ok ⟨d1, d2, d3, d4, d5⟩

/-- Embeds `decode_mri_credentials` (src/utils.py lines 155-186): first the
list `missing = [f for f in required_fields if f not in response_json]` is
computed and, if non-empty, the function raises naming exactly those
fields; only then are the five fields base64-decoded, any decode failure
aborting the extraction. -/
def decode_mri_credentials (b64 : String → Option String)
    (payload : List (String × String)) : CredResult :=
  let missing := mriRequiredFields.filter (fun f => (lookupField payload f).isNone)
  if missing.isEmpty then
    match decodeAllFields b64 payload with
    | .ok c => .ok c
    | .error f => .decodeError f
  else .missingFields missing

/-- `str.upper()` on the ASCII headers handled by the mapping sync. -/
def pyUpper (s : String) : String := String.mk (s.data.map Char.toUpper)

/-- Python string slicing `s[:n]`: the first `n` characters. -/
def pyTake (s : String) (n : Nat) : String := String.mk (s.data.take n)

/-- Python `str.strip()`: whitespace removed from both ends. -/
def pyStrip (s : String) : String :=
  String.mk (((s.data.dropWhile Char.isWhitespace).reverse.dropWhile
    Char.isWhitespace).reverse)

/-- One `{source, destination}` entry of the mapping specification. -/
structure MapItem where
  source : String
  destination : String
deriving DecidableEq, Repr

/-- Embeds `MRIImportManager._add_missing_sources` (src/mri_import.py lines
65-86): the set of existing sources is uppercased ONCE before the loop;
each header whose uppercase is not in that set appends an identity entry
(uppercased header as both source and destination) and sets the modified
flag; the membership set is never updated as entries are added. -/
def add_missing_sources (headers : List String) (items : List MapItem) :
    List MapItem × Bool :=
  headers.foldl
    (fun acc header =>
      if pyUpper header ∈ items.map (fun item => pyUpper item.source) then acc
      else (acc.1 ++ [⟨pyUpper header, pyUpper header⟩], true))
    (items, false)

/-- The mapping specification: two top-level entry lists. -/
structure Mapping where
  accountItems : List MapItem
  locationItems : List MapItem
deriving DecidableEq, Repr

/-- Result of `_sync_mapping_with_csv_headers`: the updated mapping and
whether the file was re-written (the source writes `mapping.json` back iff
`modified` is true). -/
structure SyncResult where
  mapping : Mapping
  saved : Bool
deriving DecidableEq, Repr

/-- Embeds `MRIImportManager._sync_mapping_with_csv_headers`
(src/mri_import.py lines 88-117): the account headers are synced against
`accountItems`, the location headers against `locationItems`, and the
updated specification is persisted iff either pass added an entry. -/
def sync_mapping_with_csv_headers (accountHeaders locationHeaders : List String)
    (mapping : Mapping) : SyncResult :=
  let accountPass := add_missing_sources accountHeaders mapping.accountItems
  let locationPass := add_missing_sources locationHeaders mapping.locationItems
  { mapping := ⟨accountPass.1, locationPass.1⟩,
    saved := accountPass.2 || locationPass.2 }

/-- The JSON body sent by `PortfolioManager.create_portfolio`. -/
structure CreatePortfolioBody where
  portfolioName : String
  portfolioNumber : String
  description : String
deriving DecidableEq, Repr

/-- Result of `PortfolioManager.create_portfolio` up to the POST: either
the request body that will be sent, or one of the failure modes that
precede it. -/
inductive CreatePortfolioResult
  | ok (body : CreatePortfolioBody)
  | validationError (param : String)
  | edmCountError (msg : String)
  | duplicateNameError (msg : String)
  | extractError
deriving DecidableEq, Repr

/-- `validate_non_empty_string` (src/irp_integration/validators.py lines
13-29) reduced to its value check: a string fails iff it is empty after
stripping whitespace. -/
def nonEmptyString (value : String) : Bool := !(pyStrip value == "")

/-- Embeds `PortfolioManager.create_portfolio` (src/portfolio.py lines
213-265) up to the POST request: the three string validations, the EDM
lookup, the duplicate-name search (any existing portfolio with the name is
an error), and the request body, whose `portfolioNumber` is
`portfolio_number[:20]` while `portfolioName` and `description` are passed
through unchanged. -/
def create_portfolio (edm_name portfolio_name portfolio_number description : String)
    (edms : List EdmRec) (existing : List PortfolioRec) : CreatePortfolioResult :=
  if !nonEmptyString edm_name then .validationError "edm_name"
  else if !nonEmptyString portfolio_name then .validationError "portfolio_name"
  else if !nonEmptyString portfolio_number then .validationError "portfolio_number"
  else
    match lookup_edm edm_name edms with
    | .countError msg => .edmCountError msg
    | .extractError => .extractError
    | .ok _ =>
      if 0 < existing.length then
        .duplicateNameError (toString existing.length ++
          " portfolios found with name " ++ portfolio_name ++
          ", please use a unique name")
      else
        .ok ⟨portfolio_name, pyTake portfolio_number 20, description⟩

/-- The uppercased existing sources of a mapping item list, as computed
once at the top of `_add_missing_sources`. -/
def existingSourcesUpper (items : List MapItem) : List String :=
  items.map (fun item => pyUpper item.source)

/-- The identity entries one `_add_missing_sources` pass appends: one per
header whose uppercase is not among the (fixed) existing sources. -/
def missingEntries (existing : List String) (headers : List String) : List MapItem :=
  headers.filterMap (fun h =>
    if pyUpper h ∈ existing then none else some ⟨pyUpper h, pyUpper h⟩)

/-- Number of mapping entries whose source equals `s`. -/
def countSource (items : List MapItem) (s : String) : Nat :=
  (items.filter (fun item => item.source == s)).length

theorem addMissingFoldl (existing : List String) (headers : List String) :
    ∀ (l : List MapItem) (b : Bool),
    List.foldl (fun acc header =>
        if pyUpper header ∈ existing then acc
        else (acc.1 ++ [(⟨pyUpper header, pyUpper header⟩ : MapItem)], true)) (l, b) headers =
      (l ++ missingEntries existing headers,
       b || headers.any (fun h => !decide (pyUpper h ∈ existing))) := by
  induction headers with
  | nil => intro l b; simp [missingEntries]
  | cons h t ih =>
    intro l b
    by_cases hm : pyUpper h ∈ existing
    · simp [List.foldl_cons, hm, missingEntries, List.filterMap_cons, ih l b]
    · simp only [List.foldl_cons, if_neg hm, ih]
      simp [missingEntries, List.filterMap_cons, if_neg hm, hm]

theorem add_missing_sources_eq (headers : List String) (items : List MapItem) :
    add_missing_sources headers items =
      (items ++ missingEntries (existingSourcesUpper items) headers,
       headers.any (fun h => !decide (pyUpper h ∈ existingSourcesUpper items))) := by
  have := addMissingFoldl (existingSourcesUpper items) headers items false
  simpa [add_missing_sources, existingSourcesUpper] using this

theorem missingEntries_source_not_mem (existing headers : List String) :
    ∀ e ∈ missingEntries existing headers, e.source ∉ existing := by
  intro e he
  simp only [missingEntries, List.mem_filterMap] at he
  obtain ⟨h, _, hf⟩ := he
  by_cases hm : pyUpper h ∈ existing
  · simp [hm] at hf
  · simp only [if_neg hm, Option.some.injEq] at hf
    rw [← hf]
    exact hm

theorem any_missing_iff (existing headers : List String) :
    (headers.any (fun h => !decide (pyUpper h ∈ existing)) = true) ↔
      missingEntries existing headers ≠ [] := by
  induction headers with
  | nil => simp [missingEntries]
  | cons h t ih =>
    by_cases hm : pyUpper h ∈ existing
    · simp only [missingEntries, List.filterMap_cons, if_pos hm] at ih ⊢
      simp [hm, ih]
    · simp [missingEntries, List.filterMap_cons, hm]

theorem append_eq_self_iff {α : Type} (l new : List α) : l ++ new = l ↔ new = [] := by
  constructor
  · intro h
    have hlen := congrArg List.length h
    simp only [List.length_append] at hlen
    have : new.length = 0 := by omega
    exact List.length_eq_zero.mp this
  · intro h
    simp [h]

/-- Claim C7: mapping synchronization appends, for each file header not
already present as a mapping source under case-insensitive comparison, an
identity entry whose source and destination both equal the uppercased
header; a header that already matches an existing source
case-insensitively adds no entry with that source; and the updated
specification is persisted (saved back to the mapping file) exactly when
some entry was added. -/
theorem mapping_sync_identity_entries
    (accountHeaders locationHeaders : List String) (mapping : Mapping) :
    (∀ h ∈ accountHeaders, pyUpper h ∉ existingSourcesUpper mapping.accountItems →
      (⟨pyUpper h, pyUpper h⟩ : MapItem) ∈
        (sync_mapping_with_csv_headers accountHeaders locationHeaders mapping).mapping.accountItems) ∧
    (∀ h ∈ accountHeaders, pyUpper h ∈ existingSourcesUpper mapping.accountItems →
      countSource
        (sync_mapping_with_csv_headers accountHeaders locationHeaders mapping).mapping.accountItems
        (pyUpper h) = countSource mapping.accountItems (pyUpper h)) ∧
    (∀ h ∈ locationHeaders, pyUpper h ∉ existingSourcesUpper mapping.locationItems →
      (⟨pyUpper h, pyUpper h⟩ : MapItem) ∈
        (sync_mapping_with_csv_headers accountHeaders locationHeaders mapping).mapping.locationItems) ∧
    (∀ h ∈ locationHeaders, pyUpper h ∈ existingSourcesUpper mapping.locationItems →
      countSource
        (sync_mapping_with_csv_headers accountHeaders locationHeaders mapping).mapping.locationItems
        (pyUpper h) = countSource mapping.locationItems (pyUpper h)) ∧
    ((sync_mapping_with_csv_headers accountHeaders locationHeaders mapping).saved = true ↔
      (sync_mapping_with_csv_headers accountHeaders locationHeaders mapping).mapping ≠ mapping) := by
  have memPart : ∀ (headers : List String) (items : List MapItem),
      ∀ h ∈ headers, pyUpper h ∉ existingSourcesUpper items →
      (⟨pyUpper h, pyUpper h⟩ : MapItem) ∈ (add_missing_sources headers items).1 := by
    intro headers items h hmem habs
    rw [add_missing_sources_eq]
    apply List.mem_append_right
    simp only [missingEntries, List.mem_filterMap]
    exact ⟨h, hmem, by simp [if_neg habs]⟩
  have cntPart : ∀ (headers : List String) (items : List MapItem),
      ∀ h ∈ headers, pyUpper h ∈ existingSourcesUpper items →
      countSource (add_missing_sources headers items).1 (pyUpper h) =
        countSource items (pyUpper h) := by
    intro headers items h _ hmem
    rw [add_missing_sources_eq]
    simp only [countSource, List.filter_append, List.length_append]
    have hnil : (missingEntries (existingSourcesUpper items) headers).filter
        (fun item => item.source == pyUpper h) = [] := by
      rw [List.filter_eq_nil_iff]
      intro e he
      have := missingEntries_source_not_mem (existingSourcesUpper items) headers e he
      simp only [beq_iff_eq]
      intro hcontra
      exact this (hcontra ▸ hmem)
    simp [hnil]
  have savePart : ∀ (headers : List String) (items : List MapItem),
      ((add_missing_sources headers items).2 = true ↔
        (add_missing_sources headers items).1 ≠ items) := by
    intro headers items
    rw [add_missing_sources_eq]
    simp only
    rw [any_missing_iff]
    constructor
    · intro hne hcontra
      exact hne ((append_eq_self_iff items _).mp hcontra)
    · intro hne hcontra
      exact hne (by simp [hcontra])
  refine ⟨?_, ?_, ?_, ?_, ?_⟩
  · intro h hmem habs
    exact memPart accountHeaders mapping.accountItems h hmem habs
  · intro h hmem hpres
    exact cntPart accountHeaders mapping.accountItems h hmem hpres
  · intro h hmem habs
    exact memPart locationHeaders mapping.locationItems h hmem habs
  · intro h hmem hpres
    exact cntPart locationHeaders mapping.locationItems h hmem hpres
  · simp only [sync_mapping_with_csv_headers, Bool.or_eq_true]
    rw [savePart accountHeaders mapping.accountItems,
        savePart locationHeaders mapping.locationItems]
    constructor
    · intro hor hcontra
      have h1 : (add_missing_sources accountHeaders mapping.accountItems).1 =
          mapping.accountItems := congrArg Mapping.accountItems hcontra
      have h2 : (add_missing_sources locationHeaders mapping.locationItems).1 =
          mapping.locationItems := congrArg Mapping.locationItems hcontra
      rcases hor with hl | hr
      · exact hl h1
      · exact hr h2
    · intro hne
      by_contra hcontra
      push_neg at hcontra
      obtain ⟨ha, hl⟩ := hcontra
      apply hne
      have ha2 : (add_missing_sources accountHeaders mapping.accountItems).1 =
          mapping.accountItems := by
        by_contra hx
        exact absurd hx (by simpa using ha)
      have hl2 : (add_missing_sources locationHeaders mapping.locationItems).1 =
          mapping.locationItems := by
        by_contra hx
        exact absurd hx (by simpa using hl)
      cases mapping
      simp_all

/-- Concrete instance of claim C7: header ZIP absent from the account
mapping sources is added as an identity entry, and header zip already
present (case-insensitively) as source ZIP adds no duplicate
location entry. -/
theorem mapping_sync_identity_entries_witness :
    (⟨"ZIP", "ZIP"⟩ : MapItem) ∈
      (sync_mapping_with_csv_headers ["ZIP"] ["zip"]
        ⟨[], [⟨"ZIP", "ZIP"⟩]⟩).mapping.accountItems ∧
    countSource
      (sync_mapping_with_csv_headers ["ZIP"] ["zip"]
        ⟨[], [⟨"ZIP", "ZIP"⟩]⟩).mapping.locationItems "ZIP" =
      countSource [⟨"ZIP", "ZIP"⟩] "ZIP" :=
  ⟨(mapping_sync_identity_entries ["ZIP"] ["zip"] ⟨[], [⟨"ZIP", "ZIP"⟩]⟩).1
      "ZIP" (by decide) (by decide),
   (mapping_sync_identity_entries ["ZIP"] ["zip"] ⟨[], [⟨"ZIP", "ZIP"⟩]⟩).2.2.2.1
      "zip" (by decide) (by decide)⟩

/-- Claim C10: the existing-source set is computed once per pass, so two
case-insensitively equal headers that are both absent produce two
identical identity entries in one pass, while a second pass over the same
inputs adds nothing. -/
theorem add_missing_sources_single_pass_duplicates
    (items : List MapItem) (h1 h2 : String)
    (hupper : pyUpper h1 = pyUpper h2)
    (habsent : pyUpper h1 ∉ existingSourcesUpper items) :
    add_missing_sources [h1, h2] items =
      (items ++ [⟨pyUpper h1, pyUpper h1⟩, ⟨pyUpper h1, pyUpper h1⟩], true) ∧
    add_missing_sources ["Zip", "ZIP"] [] =
      ([⟨"ZIP", "ZIP"⟩, ⟨"ZIP", "ZIP"⟩], true) ∧
    add_missing_sources ["Zip", "ZIP"] [⟨"ZIP", "ZIP"⟩, ⟨"ZIP", "ZIP"⟩] =
      ([⟨"ZIP", "ZIP"⟩, ⟨"ZIP", "ZIP"⟩], false) := by
  have habsent2 : pyUpper h2 ∉ existingSourcesUpper items := hupper ▸ habsent
  refine ⟨?_, by decide, by decide⟩
  rw [add_missing_sources_eq]
  simp [missingEntries, List.filterMap_cons, habsent, habsent2, ← hupper]

/-- Concrete instance of claim C10: headers Zip and ZIP, neither present,
append two identical identity entries in one pass. -/
theorem add_missing_sources_single_pass_duplicates_witness :
    add_missing_sources ["Zip", "ZIP"] [⟨"NAME", "NAME"⟩] =
      ([⟨"NAME", "NAME"⟩, ⟨pyUpper "Zip", pyUpper "Zip"⟩,
        ⟨pyUpper "Zip", pyUpper "Zip"⟩], true) :=
  (add_missing_sources_single_pass_duplicates [⟨"NAME", "NAME"⟩] "Zip" "ZIP"
    (by decide) (by decide)).1

/-- Claim C9: the portfolioNumber field sent by create_portfolio is the
first 20 characters of the portfolio_number argument; a longer argument is
silently truncated (not rejected by validation), while portfolioName and
description are passed through unchanged. -/
theorem create_portfolio_truncates_number
    (edm_name portfolio_name portfolio_number description : String) (eid : Nat)
    (h1 : nonEmptyString edm_name = true)
    (h2 : nonEmptyString portfolio_name = true)
    (h3 : nonEmptyString portfolio_number = true) :
    create_portfolio edm_name portfolio_name portfolio_number description
        [⟨some eid⟩] [] =
      .ok ⟨portfolio_name, pyTake portfolio_number 20, description⟩ ∧
    (pyTake portfolio_number 20).data = portfolio_number.data.take 20 := by
  constructor
  · simp [create_portfolio, h1, h2, h3, lookup_edm]
  · simp [pyTake]

/-- Concrete instance of claim C9: a 27-character portfolio number passes
validation and is sent truncated to its first 20 characters. -/
theorem create_portfolio_truncates_number_witness :
    create_portfolio "EDM1" "PortA" "123456789012345678901234567" "desc"
        [⟨some 7⟩] [] =
      .ok ⟨"PortA", pyTake "123456789012345678901234567" 20, "desc"⟩ ∧
    (pyTake "123456789012345678901234567" 20).data =
      "123456789012345678901234567".data.take 20 :=
  create_portfolio_truncates_number "EDM1" "PortA" "123456789012345678901234567"
    "desc" 7 (by decide) (by decide) (by decide)

theorem decodeRequired_ok_exists (b64 : String → Option String)
    (payload : List (String × String)) (f d : String)
    (h : decodeRequired b64 payload f = .ok d) :
    ∃ v, lookupField payload f = some v ∧ b64 v = some d := by
  cases hlf : lookupField payload f with
  | none => simp [decodeRequired, hlf] at h
  | some v =>
    cases hb : b64 v with
    | none => simp [decodeRequired, hlf, hb] at h
    | some d2 =>
      simp only [decodeRequired, hlf, hb, Except.ok.injEq] at h
      exact ⟨v, rfl, by rw [hb, h]⟩

theorem decodeAllFields_ok (b64 : String → Option String)
    (payload : List (String × String)) (c : MriCredentials)
    (h : decodeAllFields b64 payload = .ok c) :
    (∃ d, decodeRequired b64 payload "accessKeyId" = .ok d) ∧
    (∃ d, decodeRequired b64 payload "secretAccessKey" = .ok d) ∧
    (∃ d, decodeRequired b64 payload "sessionToken" = .ok d) ∧
    (∃ d, decodeRequired b64 payload "s3Path" = .ok d) ∧
    (∃ d, decodeRequired b64 payload "s3Region" = .ok d) := by
  unfold decodeAllFields at h
  cases h1 : decodeRequired b64 payload "accessKeyId" with
  | error f => rw [h1] at h; exact absurd h (by simp)
  | ok d1 =>
    rw [h1] at h
    cases h2 : decodeRequired b64 payload "secretAccessKey" with
    | error f => rw [h2] at h; exact absurd h (by simp)
    | ok d2 =>
      rw [h2] at h
      cases h3 : decodeRequired b64 payload "sessionToken" with
      | error f => rw [h3] at h; exact absurd h (by simp)
      | ok d3 =>
        rw [h3] at h
        cases h4 : decodeRequired b64 payload "s3Path" with
        | error f => rw [h4] at h; exact absurd h (by simp)
        | ok d4 =>
          rw [h4] at h
          cases h5 : decodeRequired b64 payload "s3Region" with
          | error f => rw [h5] at h; exact absurd h (by simp)
          | ok d5 =>
            exact ⟨⟨d1, rfl⟩, ⟨d2, rfl⟩, ⟨d3, rfl⟩, ⟨d4, rfl⟩, ⟨d5, rfl⟩⟩

/-- Claim C6: if any of the five required credential fields is absent,
decoding fails naming exactly the missing fields, without the base64
decoder ever being consulted (the outcome is the same for every decoder);
if all five are present and every decode succeeds the full record is
returned; and a successful extraction implies every field was present and
decoded, so a decode failure on any field aborts the whole extraction and
no partial record is ever produced. -/
theorem decode_mri_credentials_spec
    (b64 : String → Option String) (payload : List (String × String)) :
    ((mriRequiredFields.filter (fun f => (lookupField payload f).isNone)) ≠ [] →
      (∀ g : String → Option String,
        decode_mri_credentials g payload =
          .missingFields
            (mriRequiredFields.filter (fun f => (lookupField payload f).isNone))) ∧
      (∀ f, f ∈ mriRequiredFields.filter (fun f2 => (lookupField payload f2).isNone) ↔
        (f ∈ mriRequiredFields ∧ lookupField payload f = none))) ∧
    (∀ v1 v2 v3 v4 v5 d1 d2 d3 d4 d5 : String,
      lookupField payload "accessKeyId" = some v1 →
      lookupField payload "secretAccessKey" = some v2 →
      lookupField payload "sessionToken" = some v3 →
      lookupField payload "s3Path" = some v4 →
      lookupField payload "s3Region" = some v5 →
      b64 v1 = some d1 → b64 v2 = some d2 → b64 v3 = some d3 →
      b64 v4 = some d4 → b64 v5 = some d5 →
      decode_mri_credentials b64 payload = .ok ⟨d1, d2, d3, d4, d5⟩) ∧
    (∀ c, decode_mri_credentials b64 payload = .ok c →
      ∀ f ∈ mriRequiredFields, ∃ v d, lookupField payload f = some v ∧ b64 v = some d) := by
  refine ⟨?_, ?_, ?_⟩
  · intro hne
    constructor
    · intro g
      have hfalse : (mriRequiredFields.filter
          (fun f => (lookupField payload f).isNone)).isEmpty = false := by
        simp [List.isEmpty_iff, hne]
      simp [decode_mri_credentials, hfalse]
    · intro f
      simp [List.mem_filter, Option.isNone_iff_eq_none]
  · intro v1 v2 v3 v4 v5 d1 d2 d3 d4 d5 hl1 hl2 hl3 hl4 hl5 hb1 hb2 hb3 hb4 hb5
    have hm : (mriRequiredFields.filter
        (fun f => (lookupField payload f).isNone)) = [] := by
      simp [mriRequiredFields, hl1, hl2, hl3, hl4, hl5]
    simp [decode_mri_credentials, hm, decodeAllFields, decodeRequired,
      hl1, hl2, hl3, hl4, hl5, hb1, hb2, hb3, hb4, hb5]
  · intro c hok f hf
    by_cases hempty : (mriRequiredFields.filter
        (fun f2 => (lookupField payload f2).isNone)).isEmpty
    · have hda : decodeAllFields b64 payload = .ok c := by
        simp only [decode_mri_credentials, hempty, if_true] at hok
        cases hx : decodeAllFields b64 payload with
        | error g => rw [hx] at hok; exact absurd hok (by simp)
        | ok c2 => rw [hx] at hok; simp only [CredResult.ok.injEq] at hok; rw [hok]
      have hall := decodeAllFields_ok b64 payload c hda
      simp only [mriRequiredFields, List.mem_cons, List.not_mem_nil, or_false] at hf
      rcases hf with rfl | rfl | rfl | rfl | rfl
      · obtain ⟨d, hd⟩ := hall.1
        obtain ⟨v, hv, hbv⟩ := decodeRequired_ok_exists b64 payload _ d hd
        exact ⟨v, d, hv, hbv⟩
      · obtain ⟨d, hd⟩ := hall.2.1
        obtain ⟨v, hv, hbv⟩ := decodeRequired_ok_exists b64 payload _ d hd
        exact ⟨v, d, hv, hbv⟩
      · obtain ⟨d, hd⟩ := hall.2.2.1
        obtain ⟨v, hv, hbv⟩ := decodeRequired_ok_exists b64 payload _ d hd
        exact ⟨v, d, hv, hbv⟩
      · obtain ⟨d, hd⟩ := hall.2.2.2.1
        obtain ⟨v, hv, hbv⟩ := decodeRequired_ok_exists b64 payload _ d hd
        exact ⟨v, d, hv, hbv⟩
      · obtain ⟨d, hd⟩ := hall.2.2.2.2
        obtain ⟨v, hv, hbv⟩ := decodeRequired_ok_exists b64 payload _ d hd
        exact ⟨v, d, hv, hbv⟩
    · exfalso
      have : decode_mri_credentials b64 payload =
          .missingFields (mriRequiredFields.filter
            (fun f2 => (lookupField payload f2).isNone)) := by
        simp only [decode_mri_credentials]
        rw [if_neg hempty]
      rw [this] at hok
      exact absurd hok (by simp)

/-- Concrete instance of claim C6: a full payload decodes to the full
record, and a payload with only secretAccessKey fails naming exactly the
other four fields for an arbitrary decoder. -/
theorem decode_mri_credentials_spec_witness :
    decode_mri_credentials (fun s => some (s ++ "x"))
        [("accessKeyId", "a"), ("secretAccessKey", "b"), ("sessionToken", "c"),
         ("s3Path", "d"), ("s3Region", "e")] =
      .ok ⟨"ax", "bx", "cx", "dx", "ex"⟩ ∧
    decode_mri_credentials (fun s => some s) [("secretAccessKey", "b")] =
      .missingFields (mriRequiredFields.filter
        (fun f => (lookupField [("secretAccessKey", "b")] f).isNone)) :=
  ⟨(decode_mri_credentials_spec (fun s => some (s ++ "x"))
      [("accessKeyId", "a"), ("secretAccessKey", "b"), ("sessionToken", "c"),
       ("s3Path", "d"), ("s3Region", "e")]).2.1
      "a" "b" "c" "d" "e" "ax" "bx" "cx" "dx" "ex"
      (by decide) (by decide) (by decide) (by decide) (by decide)
      rfl rfl rfl rfl rfl,
   ((decode_mri_credentials_spec (fun s => some s)
      [("secretAccessKey", "b")]).1 (by decide)).1 (fun s => some s)⟩

/-- Counterexample to claim C1 as stated: a batch poll tick whose only
workflow has status WEIRD, outside both the COMPLETED and the IN_PROGRESS
sets, terminates the batch poll immediately with that workflow reported as
finished, instead of being treated as still-in-progress. -/
theorem batch_unknown_status_cex :
    ("WEIRD" ∉ (["FINISHED"] : List String)) ∧
    ("WEIRD" ∉ (["RUNNING", "QUEUED"] : List String)) ∧
    poll_workflow_batch_to_completion ["RUNNING", "QUEUED"] 20 600
        [[⟨some 1, [⟨some "WEIRD", some 0, 0⟩]⟩]] =
      .finished [⟨some "WEIRD", some 0, 0⟩] [[0]] := by decide

/-- Claim C1 (amended): the single-handle pollers treat any status outside
the COMPLETED set as not-yet-terminal and continue to the next tick; the
batch pollers instead treat any status outside the IN_PROGRESS set as
completed, so a status outside both sets terminates a batch poll. -/
theorem unknown_status_handling
    (completed inProgress : List String) (interval timeout : Nat) :
    (∀ (r : WfRecord) (s : String) (p : Nat) (rest : List WfRecord),
      r.status = some s → r.progress = some p → s ∉ completed →
      poll_workflow_to_completion completed interval timeout (r :: rest) =
        pollJobAux completed interval timeout rest interval 1) ∧
    (∀ (r : WfRecord) (rest : List WfRecord),
      r.status.getD "" ∉ completed →
      poll_workflow completed interval timeout (r :: rest) =
        pollUrlAux completed interval timeout rest interval 1) ∧
    (∀ (tick : List Page) (rest : List (List Page)) (all : List WfRecord)
        (offs : List Nat),
      fetch_all_pages tick = .done all offs →
      (∀ w ∈ all, w.status.getD "" ∉ inProgress) →
      poll_workflow_batch_to_completion inProgress interval timeout (tick :: rest) =
        .finished all [offs]) := by
  refine ⟨?_, ?_, ?_⟩
  · intro r s p rest hs hp hni
    simp [poll_workflow_to_completion, pollJobAux, hs, hp, hni, Nat.not_lt_zero]
  · intro r rest hni
    simp [poll_workflow, pollUrlAux, hni, Nat.not_lt_zero]
  · intro tick rest all offs hfetch hnp
    have hall : all.all (fun w => decide (w.status.getD "" ∉ inProgress)) = true := by
      rw [List.all_eq_true]
      intro w hw
      simpa using hnp w hw
    simp [poll_workflow_batch_to_completion, pollBatchAux, hfetch]
    intro x hx hmem
    exact absurd hmem (hnp x hx)

/-- Concrete instance of claim C1 (amended): an unrecognized status makes
the ID-style poller continue into the next tick. -/
theorem unknown_status_handling_witness :
    poll_workflow_to_completion ["FINISHED"] 5 600
        [⟨some "MYSTERY", some 1, 0⟩, ⟨some "FINISHED", some 100, 1⟩] =
      pollJobAux ["FINISHED"] 5 600 [⟨some "FINISHED", some 100, 1⟩] 5 1 :=
  (unknown_status_handling ["FINISHED"] ["RUNNING"] 5 600).1
    ⟨some "MYSTERY", some 1, 0⟩ "MYSTERY" 1 [⟨some "FINISHED", some 100, 1⟩]
    rfl rfl (by decide)

/-- Counterexample to claim C2 as stated: with interval 2 greater than
timeout 1 and statuses never completed, the single poller performs two
fetches, not exactly one, before raising the timeout error. -/
theorem single_poll_interval_gt_timeout_cex :
    poll_workflow_to_completion ["FINISHED"] 2 1
        [⟨some "RUNNING", some 10, 0⟩, ⟨some "RUNNING", some 20, 1⟩] =
      .timedOut "RUNNING" 2 ∧
    (poll_workflow_to_completion ["FINISHED"] 2 1
        [⟨some "RUNNING", some 10, 0⟩, ⟨some "RUNNING", some 20, 1⟩]).fetches ≠ 1 := by
  decide

/-- Claim C2 (amended): with interval greater than timeout and statuses
never in the COMPLETED set, both single-handle pollers perform exactly two
status fetches: the first timeout check observes elapsed time 0 (the check
precedes the sleep), then after one sleep the second check observes
elapsed time interval, exceeding the timeout, and the timeout error
references the status observed on the second fetch. -/
theorem single_poll_interval_gt_timeout
    (completed : List String) (interval timeout : Nat)
    (r0 r1 : WfRecord) (s0 s1 : String) (p0 p1 : Nat) (rest : List WfRecord)
    (h0s : r0.status = some s0) (h0p : r0.progress = some p0)
    (h1s : r1.status = some s1) (h1p : r1.progress = some p1)
    (hs0 : s0 ∉ completed) (hs1 : s1 ∉ completed)
    (hit : timeout < interval) :
    poll_workflow_to_completion completed interval timeout (r0 :: r1 :: rest) =
      .timedOut s1 2 ∧
    poll_workflow completed interval timeout (r0 :: r1 :: rest) =
      .timedOut s1 2 := by
  constructor
  · simp [poll_workflow_to_completion, pollJobAux, h0s, h0p, h1s, h1p, hs0, hs1,
      Nat.not_lt_zero, hit]
  · simp [poll_workflow, pollUrlAux, h0s, h1s, hs0, hs1, Nat.not_lt_zero, hit]

/-- Concrete instance of claim C2 (amended): interval 7, timeout 3, two
in-progress fetches, then the timeout fires naming the second status. -/
theorem single_poll_interval_gt_timeout_witness :
    poll_workflow_to_completion ["FINISHED"] 7 3
        [⟨some "PENDING", some 0, 0⟩, ⟨some "RUNNING", some 50, 1⟩] =
      .timedOut "RUNNING" 2 ∧
    poll_workflow ["FINISHED"] 7 3
        [⟨some "PENDING", some 0, 0⟩, ⟨some "RUNNING", some 50, 1⟩] =
      .timedOut "RUNNING" 2 :=
  single_poll_interval_gt_timeout ["FINISHED"] 7 3
    ⟨some "PENDING", some 0, 0⟩ ⟨some "RUNNING", some 50, 1⟩ "PENDING" "RUNNING"
    0 50 [] rfl rfl rfl rfl (by decide) (by decide) (by decide)

/-- Counterexample to claim C3 as stated: the URL-style poller
poll_workflow, fed a first record with no status field at all, does not
fail with an API error on that tick; it keeps polling and returns the
second record after two fetches. -/
theorem missing_fields_handling_cex :
    poll_workflow ["FINISHED"] 1 600
        [⟨none, none, 0⟩, ⟨some "FINISHED", some 100, 1⟩] =
      .finished ⟨some "FINISHED", some 100, 1⟩ 2 := by decide

/-- Claim C3 (amended): the ID-style pollers (poll_workflow_to_completion
and poll_geohaz_job_to_completion) fail immediately with an API error on a
tick whose record is missing status or progress; the URL-style
poll_workflow instead defaults the missing fields to the empty string and
continues polling. -/
theorem missing_fields_handling
    (completed : List String) (interval timeout : Nat) (r : WfRecord)
    (rest : List WfRecord) :
    ((r.status = none ∨ r.progress = none) →
      poll_workflow_to_completion completed interval timeout (r :: rest) =
        .malformed 1) ∧
    (r.status = none → "" ∉ completed →
      poll_workflow completed interval timeout (r :: rest) =
        pollUrlAux completed interval timeout rest interval 1) := by
  constructor
  · intro hcase
    rcases hcase with hs | hp
    · cases hp2 : r.progress with
      | none => simp [poll_workflow_to_completion, pollJobAux, hs, hp2]
      | some p => simp [poll_workflow_to_completion, pollJobAux, hs, hp2]
    · cases hs2 : r.status with
      | none => simp [poll_workflow_to_completion, pollJobAux, hs2, hp]
      | some s => simp [poll_workflow_to_completion, pollJobAux, hs2, hp]
  · intro hs hnc
    simp [poll_workflow, pollUrlAux, hs, hnc, Nat.not_lt_zero]

/-- Concrete instance of claim C3 (amended): a record with no status field
is an immediate API error for the ID-style poller but only an ordinary
still-in-progress tick for the URL-style poller. -/
theorem missing_fields_handling_witness :
    poll_workflow_to_completion ["FINISHED"] 1 600 [⟨none, some 5, 0⟩] =
      .malformed 1 ∧
    poll_workflow ["FINISHED"] 1 600 [⟨none, some 5, 0⟩] =
      pollUrlAux ["FINISHED"] 1 600 [] 1 1 :=
  ⟨(missing_fields_handling ["FINISHED"] 1 600 ⟨none, some 5, 0⟩ []).1 (Or.inl rfl),
   (missing_fields_handling ["FINISHED"] 1 600 ⟨none, some 5, 0⟩ []).2 rfl (by decide)⟩

/-- Counterexample to claim C4 as stated: with totalMatchCount 250 and
limit 100, a tick whose first page already returns all 250 items performs
exactly one page fetch at offset 0, not three fetches at offsets
0, 100, 200 — the fetch count does depend on how many items earlier pages
returned. -/
theorem batch_pagination_pages_cex :
    fetch_all_pages
        [⟨some 250, List.replicate 250 ⟨some "FINISHED", some 100, 0⟩⟩] =
      .done (List.replicate 250 ⟨some "FINISHED", some 100, 0⟩) [0] ∧
    ([0] : List Nat) ≠ [0, 100, 200] := by decide

/-- Claim C4 (amended): pagination within a tick stops as soon as the
cumulative fetched count reaches totalMatchCount, so with
totalMatchCount 250 and pages of 100, 100 and 50 items exactly three page
fetches occur at offsets 0, 100, 200 (a page returning more ends the tick
earlier); and every tick restarts pagination from offset 0 with no
cross-tick state, as the recorded offset trace of a two-tick batch run
shows. -/
theorem batch_pagination_pages
    (ws1 ws2 ws3 : List WfRecord) (rest : List Page)
    (hl1 : ws1.length = 100) (hl2 : ws2.length = 100) (hl3 : ws3.length = 50) :
    fetch_all_pages
        (⟨some 250, ws1⟩ :: ⟨some 250, ws2⟩ :: ⟨some 250, ws3⟩ :: rest) =
      .done (ws1 ++ ws2 ++ ws3) [0, 100, 200] ∧
    poll_workflow_batch_to_completion ["RUNNING"] 20 600
        [[⟨some 250, List.replicate 100 ⟨some "RUNNING", some 1, 0⟩⟩,
          ⟨some 250, List.replicate 100 ⟨some "RUNNING", some 1, 0⟩⟩,
          ⟨some 250, List.replicate 50 ⟨some "RUNNING", some 1, 0⟩⟩],
         [⟨some 250, List.replicate 100 ⟨some "FINISHED", some 100, 1⟩⟩,
          ⟨some 250, List.replicate 100 ⟨some "FINISHED", some 100, 1⟩⟩,
          ⟨some 250, List.replicate 50 ⟨some "FINISHED", some 100, 1⟩⟩]] =
      .finished (List.replicate 250 ⟨some "FINISHED", some 100, 1⟩)
        [[0, 100, 200], [0, 100, 200]] := by
  constructor
  · simp [fetch_all_pages, fetchPagesAux, hl1, hl2, hl3, List.length_append]
  · decide

/-- Concrete instance of claim C4 (amended): three pages of 100, 100, 50
items are fetched at offsets 0, 100, 200. -/
theorem batch_pagination_pages_witness :
    fetch_all_pages
        [⟨some 250, List.replicate 100 ⟨some "RUNNING", some 1, 0⟩⟩,
         ⟨some 250, List.replicate 100 ⟨some "RUNNING", some 1, 0⟩⟩,
         ⟨some 250, List.replicate 50 ⟨some "RUNNING", some 1, 0⟩⟩] =
      .done (List.replicate 100 ⟨some "RUNNING", some 1, 0⟩ ++
             List.replicate 100 ⟨some "RUNNING", some 1, 0⟩ ++
             List.replicate 50 ⟨some "RUNNING", some 1, 0⟩) [0, 100, 200] :=
  (batch_pagination_pages
    (List.replicate 100 ⟨some "RUNNING", some 1, 0⟩)
    (List.replicate 100 ⟨some "RUNNING", some 1, 0⟩)
    (List.replicate 50 ⟨some "RUNNING", some 1, 0⟩) []
    (by simp) (by simp) (by simp)).1

/-- Counterexample to claim C5 as stated: a list with two items both named
X makes find_reference_data_by_name silently return the first of them
instead of failing with an error mentioning the count. -/
theorem lookup_by_name_spec_cex :
    (([⟨some "X", 1⟩, ⟨some "X", 2⟩] : List RefItem).filter
        (fun item => item.name == some "X")).length = 2 ∧
    find_reference_data_by_name [⟨some "X", 1⟩, ⟨some "X", 2⟩] "X" "portfolio" =
      .ok ⟨some "X", 1⟩ := by decide

/-- Claim C5 (amended): the MRI-import portfolio lookup does implement
exactly-one semantics (zero matches fail with a not-found message, one
match is returned, several matches fail with a message naming the count
and asking for a unique name, raised as API errors); the EDM lookup fails
for any match count other than one with a message naming the count; but
the generic find_reference_data_by_name helper silently returns the FIRST
item whose name matches, even when several match, erring only on an empty
list or on zero matches. -/
theorem lookup_by_name_spec :
    (∀ (target dt : String) (a : RefItem) (l : List RefItem),
      a.name = some target →
      find_reference_data_by_name (a :: l) target dt = .ok a) ∧
    (∀ (target dt : String) (l : List RefItem),
      l ≠ [] →
      l.find? (fun item => item.name == some target) = none →
      find_reference_data_by_name l target dt = .notFoundError dt target) ∧
    (∀ target dt, find_reference_data_by_name [] target dt = .emptyListError dt) ∧
    (∀ name, mri_lookup_portfolio name [] =
      .notFound ("Portfolio with name " ++ name ++ " not found")) ∧
    (∀ name pid u, mri_lookup_portfolio name [⟨some pid, u⟩] = .ok pid) ∧
    (∀ name (ps : List PortfolioRec), 2 ≤ ps.length →
      mri_lookup_portfolio name ps =
        .ambiguous (toString ps.length ++ " portfolios found with name " ++ name ++
          ", please use a unique name")) ∧
    (∀ (name : String) (edms : List EdmRec), edms.length ≠ 1 →
      lookup_edm name edms =
        .countError ("Expected 1 EDM with name " ++ name ++ ", found " ++
          toString edms.length)) := by
  refine ⟨?_, ?_, ?_, ?_, ?_, ?_, ?_⟩
  · intro target dt a l ha
    simp [find_reference_data_by_name, List.find?_cons, ha]
  · intro target dt l hne hfind
    simp [find_reference_data_by_name, List.isEmpty_iff, hne, hfind]
  · intro target dt
    simp [find_reference_data_by_name]
  · intro name
    simp [mri_lookup_portfolio]
  · intro name pid u
    simp [mri_lookup_portfolio]
  · intro name ps h2
    have h0 : ¬ ps.length = 0 := by omega
    have h1 : 1 < ps.length := by omega
    simp [mri_lookup_portfolio, h0, h1]
  · intro name edms hne
    simp [lookup_edm, hne]

/-- Concrete instance of claim C5 (amended): first-match return, the
ambiguous-count error of the MRI portfolio lookup, and the EDM count error
at a two-match count. -/
theorem lookup_by_name_spec_witness :
    find_reference_data_by_name [⟨some "A", 3⟩] "A" "EDM" = .ok ⟨some "A", 3⟩ ∧
    mri_lookup_portfolio "P" [⟨some 1, none⟩, ⟨some 2, none⟩] =
      .ambiguous (toString ([⟨some 1, none⟩, ⟨some 2, none⟩] : List PortfolioRec).length ++
        " portfolios found with name " ++ "P" ++ ", please use a unique name") ∧
    lookup_edm "E" [⟨some 4⟩, ⟨some 5⟩] =
      .countError ("Expected 1 EDM with name " ++ "E" ++ ", found " ++
        toString ([⟨some 4⟩, ⟨some 5⟩] : List EdmRec).length) :=
  ⟨lookup_by_name_spec.1 "A" "EDM" ⟨some "A", 3⟩ [] rfl,
   lookup_by_name_spec.2.2.2.2.2.1 "P" [⟨some 1, none⟩, ⟨some 2, none⟩] (by decide),
   lookup_by_name_spec.2.2.2.2.2.2 "E" [⟨some 4⟩, ⟨some 5⟩] (by decide)⟩

/-- Claim C8: execute_workflow returns a non-201/202 response as-is with
no status fetch; on an accepted-async response a missing (or empty)
Location header is a hard API error; and a 202 submission polled through
RUNNING, RUNNING, FINISHED returns the third payload after exactly three
status fetches. -/
theorem execute_workflow_spec
    (completed : List String) (interval timeout : Nat) :
    (∀ (resp : SubmitResponse) (records : List WfRecord),
      resp.statusCode ≠ 201 → resp.statusCode ≠ 202 →
      execute_workflow completed interval timeout resp records =
        .syncResponse resp 0) ∧
    (∀ (code : Nat) (records : List WfRecord),
      code = 201 ∨ code = 202 →
      execute_workflow completed interval timeout ⟨code, none⟩ records =
        .missingLocation) ∧
    (∀ (url : String) (r1 r2 r3 : WfRecord),
      url ≠ "" →
      r1.status = some "RUNNING" → r2.status = some "RUNNING" →
      r3.status = some "FINISHED" →
      "RUNNING" ∉ completed → "FINISHED" ∈ completed →
      interval ≤ timeout →
      execute_workflow completed interval timeout ⟨202, some url⟩ [r1, r2, r3] =
        .polled (.finished r3 3)) := by
  refine ⟨?_, ?_, ?_⟩
  · intro resp records h1 h2
    simp [execute_workflow, h1, h2]
  · intro code records hcode
    simp [execute_workflow, hcode]
  · intro url r1 r2 r3 hurl h1s h2s h3s hrun hfin hit
    have hnlt : ¬ interval > timeout := Nat.not_lt.mpr hit
    simp [execute_workflow, poll_workflow, pollUrlAux, hurl, h1s, h2s, h3s,
      hrun, hfin, Nat.not_lt_zero, hnlt]

/-- Concrete instance of claim C8: a 400 response is returned unpolled, a
202 with no Location header is an error, and a 202 polled through two
RUNNING fetches and a FINISHED fetch returns the third payload after
exactly three fetches. -/
theorem execute_workflow_spec_witness :
    execute_workflow ["FINISHED"] 10 600000 ⟨400, none⟩ [] =
      .syncResponse ⟨400, none⟩ 0 ∧
    execute_workflow ["FINISHED"] 10 600000 ⟨202, none⟩ [] = .missingLocation ∧
    execute_workflow ["FINISHED"] 10 600000
        ⟨202, some "https://host/workflows/42"⟩
        [⟨some "RUNNING", some 10, 0⟩, ⟨some "RUNNING", some 90, 1⟩,
         ⟨some "FINISHED", some 100, 2⟩] =
      .polled (.finished ⟨some "FINISHED", some 100, 2⟩ 3) :=
  ⟨(execute_workflow_spec ["FINISHED"] 10 600000).1 ⟨400, none⟩ []
      (by decide) (by decide),
   (execute_workflow_spec ["FINISHED"] 10 600000).2.1 202 [] (Or.inr rfl),
   (execute_workflow_spec ["FINISHED"] 10 600000).2.2 "https://host/workflows/42"
      ⟨some "RUNNING", some 10, 0⟩ ⟨some "RUNNING", some 90, 1⟩
      ⟨some "FINISHED", some 100, 2⟩ (by decide) rfl rfl rfl
      (by decide) (by decide) (by decide)⟩

end IRPIntegration
